import Mathlib

/-!
Shallow embedding of the db-datadir-switcher core: configuration parsing
(core/config.go), process/status resolution and the port fallback chain
(core/mariadb.go), start logic (core/mariadb.go StartMariaDBWithConfig),
stop logic (StopMySQLWithCredentials) and the CLI Stop/Switch commands.
Go strings are modelled as lists of characters; external observations
(process listings, command outputs, file system, sockets) are oracle
fields of an environment structure, while every string algorithm of the
repository is transcribed from the source.
-/

set_option maxRecDepth 10000

/-- Go strings are modelled as lists of characters. -/
abbrev GoString := List Char

/-- Conversion from a Lean string literal to the Go string model. -/
def gs (s : String) : GoString := s.toList

/-- Newline character. -/
def nlChar : Char := Char.ofNat 10

/-- Tab character. -/
def tabChar : Char := Char.ofNat 9

/-- Space character. -/
def spChar : Char := Char.ofNat 32

/-- Double-quote character. -/
def dqChar : Char := Char.ofNat 34

/-- Single-quote character. -/
def sqChar : Char := Char.ofNat 39

/-- Carriage-return character. -/
def crChar : Char := Char.ofNat 13

/-- The whitespace class used by Go strings.Fields and strings.TrimSpace
(ASCII portion of unicode.IsSpace). -/
def goIsSpace (c : Char) : Bool :=
  c = spChar || c = tabChar || c = nlChar || c = crChar ||
  c = Char.ofNat 11 || c = Char.ofNat 12

/-- The cutset " \t\n" passed to strings.IndexAny in the command-line
argument extractors (core/mariadb.go). -/
def extractWs : GoString := [spChar, tabChar, nlChar]

/-- The cutset of quote characters stripped by the extractors and the
config parser: double quote and single quote. -/
def quoteChars : GoString := [dqChar, sqChar]

/-- Model of strings.HasPrefix. -/
def goHasPrefix : GoString → GoString → Bool
  | _, [] => true
  | [], _ :: _ => false
  | a :: s, b :: p => a = b && goHasPrefix s p

/-- Model of strings.Index restricted to success or failure: the index of
the first occurrence of the pattern, if any. -/
def goIndex? : GoString → GoString → Option Nat
  | s, pat =>
    if goHasPrefix s pat then some 0
    else
      match s with
      | [] => none
      | _ :: t => (goIndex? t pat).map (· + 1)

/-- Model of strings.Contains. -/
def goContains (s pat : GoString) : Bool := (goIndex? s pat).isSome

/-- Model of strings.IndexAny: index of the first character belonging to
the cutset. -/
def goIndexAny? : GoString → GoString → Option Nat
  | [], _ => none
  | c :: rest, cutset =>
    if c ∈ cutset then some 0 else (goIndexAny? rest cutset).map (· + 1)

/-- Model of strings.LastIndex for a single-character pattern. -/
def goLastIndex? : GoString → Char → Option Nat
  | [], _ => none
  | a :: rest, c =>
    match goLastIndex? rest c with
    | some i => some (i + 1)
    | none => if a = c then some 0 else none

/-- Model of strings.Trim: remove leading and trailing characters that
belong to the cutset. -/
def goTrim (s cutset : GoString) : GoString :=
  ((s.dropWhile (· ∈ cutset)).reverse.dropWhile (· ∈ cutset)).reverse

/-- Model of strings.TrimSpace. -/
def goTrimSpace (s : GoString) : GoString :=
  ((s.dropWhile goIsSpace).reverse.dropWhile goIsSpace).reverse

/-- Model of strings.ToLower (ASCII fold, which covers every string the
program compares). -/
def goToLower (s : GoString) : GoString := s.map Char.toLower

/-- Model of strings.EqualFold on the ASCII range. -/
def goEqualFold (a b : GoString) : Bool := goToLower a = goToLower b

/-- Accumulator loop for goFields. -/
def goFieldsAux : GoString → GoString → List GoString
  | [], acc => if acc = [] then [] else [acc.reverse]
  | c :: rest, acc =>
    if goIsSpace c then
      if acc = [] then goFieldsAux rest []
      else acc.reverse :: goFieldsAux rest []
    else goFieldsAux rest (c :: acc)

/-- Model of strings.Fields: the maximal runs of non-whitespace
characters. -/
def goFields (s : GoString) : List GoString := goFieldsAux s []

/-- Model of strings.Split with a one-character separator; the result is
never empty. -/
def goSplitChar (sep : Char) : GoString → List GoString
  | [] => [[]]
  | c :: rest =>
    match goSplitChar sep rest with
    | [] => [[]]
    | h :: t => if c = sep then [] :: h :: t else (c :: h) :: t

/-- Model of strings.SplitN with limit 2 and a one-character separator. -/
def goSplitN2 (sep : Char) : GoString → List GoString
  | [] => [[]]
  | c :: rest =>
    if c = sep then [[], rest]
    else
      match goSplitN2 sep rest with
      | [] => [[c]]
      | [x] => [c :: x]
      | x :: y :: _ => [c :: x, y]

/-- Digit run to a number, failing on the empty string or a non-digit. -/
def goDigits? : GoString → Option Nat
  | [] => none
  | [c] => if c.isDigit then some (c.toNat - 48) else none
  | c :: rest =>
    if c.isDigit then
      (goDigits? rest).map (fun n => (c.toNat - 48) * 10 ^ rest.length + n)
    else none

/-- Model of strconv.Atoi as used by the repository: the parse error is
always discarded, leaving 0. -/
def goAtoi (s : GoString) : Int :=
  match s with
  | [] => 0
  | c :: rest =>
    if c = Char.ofNat 45 then
      match goDigits? rest with
      | some n => -(n : Int)
      | none => 0
    else if c = Char.ofNat 43 then
      match goDigits? rest with
      | some n => (n : Int)
      | none => 0
    else
      match goDigits? s with
      | some n => (n : Int)
      | none => 0

/-- Model of strconv.Itoa. -/
def goItoa (i : Int) : GoString :=
  if i < 0 then Char.ofNat 45 :: Nat.toDigits 10 i.natAbs
  else Nat.toDigits 10 i.toNat

/-- Model of strings.Join. -/
def goJoin (sep : GoString) (parts : List GoString) : GoString :=
  List.intercalate sep parts

/-! ## Data model (core/types.go) -/

/-- MariaDBConfig (core/types.go): one detected configuration file. -/
structure MariaDBConfig where
  name : GoString := []
  path : GoString := []
  dataDir : GoString := []
  port : GoString := []
  description : GoString := []
  isActive : Bool := false
  fileExists : Bool := false
  deriving DecidableEq

/-- MariaDBStatus (core/types.go): point-in-time state snapshot. -/
structure MariaDBStatus where
  isRunning : Bool := false
  configFile : GoString := []
  configName : GoString := []
  dataPath : GoString := []
  processID : Int := 0
  port : GoString := []
  serviceName : GoString := []
  version : GoString := []
  deriving DecidableEq

/-- MySQLCredentials (core/types.go). -/
structure MySQLCredentials where
  username : GoString := []
  password : GoString := []
  host : GoString := []
  port : GoString := []
  deriving DecidableEq

/-- The all-unset MariaDBStatus value. -/
def zeroStatus : MariaDBStatus := {}

/-! ## Environment: oracle view of the outside world

Static program configuration and file-system answers live in SysEnv;
observations that the supervisor repeats over time (process listings,
socket probes) live in OsSnap, and a World indexes snapshots by the
number of seconds slept so far. -/

/-- One instant of external observations. -/
structure OsSnap where
  /-- Output of the Unix process listing command, none on command error. -/
  psOutput : Option GoString := none
  /-- Output of the Windows process query, none on command error. -/
  wmiOutput : Option GoString := none
  /-- Output of the credentialed port query command, none on error. -/
  dbQueryOutput : Option GoString := none
  /-- Output of the socket-table listing command, none on error. -/
  netstatOutput : Option GoString := none
  /-- Whether a short-timeout TCP connect to the port succeeds. -/
  portListening : GoString → Bool := fun _ => false
  /-- Whether a local bind-and-release probe of the port succeeds. -/
  portAvailable : GoString → Bool := fun _ => true
  /-- Output of the server binary run with the version flag, none on error. -/
  versionOutput : Option GoString := none

/-- Static configuration and file-system oracle. -/
structure SysEnv where
  goos : GoString := gs "linux"
  /-- AppConfig.ProcessNames lookup; a missing key yields the empty string
  as a Go map read does. -/
  processNames : GoString → GoString := fun _ => gs "mysqld"
  mariaDBBin : GoString := []
  availableConfigs : List MariaDBConfig := []
  savedCredentials : Option MySQLCredentials := none
  pathExists : GoString → Bool := fun _ => false
  /-- Result of opening a file and scanning its lines; none models an
  open failure. -/
  fileLines : GoString → Option (List GoString) := fun _ => none
  /-- filepath.Clean (standard-library path algebra, left uninterpreted). -/
  cleanPath : GoString → GoString := id
  /-- filepath.Join on two components. -/
  joinPath : GoString → GoString → GoString :=
    fun a b => a ++ [Char.ofNat 47] ++ b
  /-- filepath.Abs; none models its error return. -/
  absPath : GoString → Option GoString := fun p => some p
  /-- filepath.Dir. -/
  dirPath : GoString → GoString := id
  /-- filepath.IsAbs. -/
  isAbsPath : GoString → Bool := fun _ => true
  isDirEmpty : GoString → Bool := fun _ => false
  mkdirOk : GoString → Bool := fun _ => true
  /-- Success of the primary data-directory setup tool. -/
  installDbOk : Bool := true
  /-- Success of the server binary insecure setup mode. -/
  mysqldInitOk : Bool := true
  /-- Success of the alternative setup invocation with the config file. -/
  mysqldInitAltOk : Bool := true
  /-- Output of the which/where lookup for the server binary, none on
  failure. -/
  whichOutput : Option GoString := none
  /-- Success of the config dry-run validation. -/
  validateOk : Bool := true
  /-- Process id from spawning the server, none when the spawn fails. -/
  spawnPid : Option Int := some 1
  /-- Success of the shutdown tool run with given credentials. -/
  shutdownOk : MySQLCredentials → Bool := fun _ => true
  /-- Interactive input lines, indexed by read order. -/
  stdin : Nat → GoString := fun _ => []
  /-- Result of the hidden password read; none models its error. -/
  readPassword : Option GoString := some []
  /-- Success of saving credentials to the keyring. -/
  keyringSaveOk : Bool := true

/-- The world seen by a run: a static environment plus a time-indexed
family of snapshots (the index counts seconds slept so far). -/
structure World where
  env : SysEnv
  snapAt : Nat → OsSnap

/-- Externally visible side effects of the supervisor, in program order.
Read-only queries (process listings, socket probes, version queries) are
not effects. -/
inductive Effect where
  | mkdirAll (dir : GoString)
  | execInstallDb (dataDir : GoString)
  | execMysqldInit (dataDir : GoString)
  | execMysqldInitAlt (dataDir configFile : GoString)
  | execValidate (configFile : GoString)
  | spawnServer (exe configFile : GoString)
  | releaseProcess
  | saveLastUsed (configFile : GoString)
  | execShutdown (host port user : GoString)
  | saveCredentials
  deriving DecidableEq

/-! ## Config parsing (core/config.go ParseConfigFile) -/

/-- The inner switch of the parse loop: apply one key=value line inside
the active section to the profile under construction. -/
def applyConfigLine (line : GoString) (cfg : MariaDBConfig) : MariaDBConfig :=
  if goContains line (gs "=") then
    match goSplitN2 (Char.ofNat 61) line with
    | [k, v] =>
      let key := goTrimSpace (goToLower k)
      let value := goTrim (goTrimSpace v) quoteChars
      if key = gs "datadir" || key = gs "data_dir" then
        { cfg with dataDir := value }
      else if key = gs "port" then
        { cfg with port := value }
      else if key = gs "description" || key = gs "comment" then
        { cfg with description := value }
      else cfg
    | _ => cfg
  else cfg

/-- The scanner loop of ParseConfigFile: line-oriented scan tracking
whether the mysqld section is active. -/
def parseLinesLoop : List GoString → Bool → MariaDBConfig → MariaDBConfig
  | [], _, cfg => cfg
  | raw :: rest, inSec, cfg =>
    let line := goTrimSpace raw
    if line = [] || goHasPrefix line (gs "#") || goHasPrefix line (gs ";") then
      parseLinesLoop rest inSec cfg
    else if goHasPrefix line (gs "[") then
      parseLinesLoop rest (goToLower line = gs "[mysqld]") cfg
    else if inSec then
      parseLinesLoop rest inSec (applyConfigLine line cfg)
    else
      parseLinesLoop rest inSec cfg

/-- ParseConfigFile (core/config.go): parse one configuration file into a
profile; an open failure returns the base profile unchanged, and the port
default is applied only after a successful scan. -/
def ParseConfigFile (env : SysEnv) (configPath : GoString) : MariaDBConfig :=
  let config : MariaDBConfig :=
    { path := configPath, fileExists := env.pathExists configPath }
  match env.fileLines configPath with
  | none => config
  | some lines =>
    let c := parseLinesLoop lines false config
    if c.port = [] then { c with port := gs "3306" } else c

/-- The trimmed lines that reach the key=value branch of the parse loop,
i.e. the non-blank, non-comment, non-header lines seen while the mysqld
section is active. Used to state when a file carries no recognized data. -/
def mysqldActiveLines : List GoString → Bool → List GoString
  | [], _ => []
  | raw :: rest, inSec =>
    let line := goTrimSpace raw
    if line = [] || goHasPrefix line (gs "#") || goHasPrefix line (gs ";") then
      mysqldActiveLines rest inSec
    else if goHasPrefix line (gs "[") then
      mysqldActiveLines rest (goToLower line = gs "[mysqld]")
    else if inSec then
      line :: mysqldActiveLines rest inSec
    else
      mysqldActiveLines rest inSec

/-- A line that would populate a profile field: a key=value line whose
key is one of the recognized keys. -/
def RecognizedKeyLine (line : GoString) : Bool :=
  goContains line (gs "=") &&
    match goSplitN2 (Char.ofNat 61) line with
    | [k, _] =>
      let key := goTrimSpace (goToLower k)
      key = gs "datadir" || key = gs "data_dir" || key = gs "port" ||
        key = gs "description" || key = gs "comment"
    | _ => false

/-! ## Command-line argument extraction (core/mariadb.go) -/

/-- The two-token fallback loop shared by the extractors: scan the
whitespace-split tokens for the standalone flag and return the
quote-trimmed following token. -/
def tokenAfter (flag : GoString) : List GoString → GoString
  | p :: q :: rest =>
    if p = flag then goTrim q quoteChars else tokenAfter flag (q :: rest)
  | _ => []

/-- Shared body of extractConfigFromCmdLine and the port extraction in
extractPortFromCmdLine (core/mariadb.go): first the --flag=value form,
value cut at the next whitespace and quote-trimmed, then the two-token
--flag value form, else empty. -/
def extractArgumentValue (flag : GoString) (cmdLine : GoString) : GoString :=
  let eqPat := gs "--" ++ flag ++ gs "="
  match goIndex? cmdLine eqPat with
  | some idx =>
    let rest := cmdLine.drop (idx + eqPat.length)
    match goIndexAny? rest extractWs with
    | none => goTrim rest quoteChars
    | some e => goTrim (rest.take e) quoteChars
  | none => tokenAfter (gs "--" ++ flag) (goFields cmdLine)

/-- extractConfigFromCmdLine (core/mariadb.go): its body is the shared
extraction algorithm instantiated at the defaults-file flag. -/
def extractConfigFromCmdLine (cmdLine : GoString) : GoString :=
  extractArgumentValue (gs "defaults-file") cmdLine

/-! ## Process discovery (core/mariadb.go FindProcessWithCmdLine) -/

/-- The effective process name: the per-OS map entry, or mysqld when the
map has no entry. -/
def processNameFor (env : SysEnv) : GoString :=
  let p := env.processNames env.goos
  if p = [] then gs "mysqld" else p

/-- Loop of findUnixProcessWithCmdLine: first listing row that mentions
the process name, does not mention grep, and has at least 11 fields. -/
def findUnixLoop (processName : GoString) : List GoString →
    Option (Int × GoString)
  | [] => none
  | line :: rest =>
    if goContains line processName && !goContains line (gs "grep") then
      let fields := goFields line
      if fields.length ≥ 11 then
        some (goAtoi ((fields.drop 1).headD []),
          goJoin [spChar] (fields.drop 10))
      else findUnixLoop processName rest
    else findUnixLoop processName rest

/-- findUnixProcessWithCmdLine (core/mariadb.go). -/
def findUnixProcess (snap : OsSnap) (processName : GoString) :
    Option (Int × GoString) :=
  match snap.psOutput with
  | none => none
  | some out => findUnixLoop processName (goSplitChar nlChar out)

/-- Process-id extraction from one Windows query line: substring after
the first colon, cut at a comma or closing brace, trimmed, parsed with
the error discarded. -/
def winPidOfLine (line : GoString) : Int :=
  let pidStart :=
    match goIndex? line [Char.ofNat 58] with
    | some i => i + 1
    | none => 0
  let rest := line.drop pidStart
  let cut :=
    match goIndexAny? rest [Char.ofNat 44, Char.ofNat 125] with
    | none => rest
    | some e => rest.take e
  goAtoi (goTrimSpace cut)

/-- Command-line extraction from one Windows query line: substring after
the first colon, trimmed of blanks and double quotes. -/
def winCmdOfLine (line : GoString) : GoString :=
  let cmdStart :=
    match goIndex? line [Char.ofNat 58] with
    | some i => i + 1
    | none => 0
  goTrim (line.drop cmdStart) [spChar, tabChar, crChar, nlChar, dqChar]

/-- First line of the Windows query output that carries the command
line. -/
def winFirstCmdLine : List GoString → GoString
  | [] => []
  | line :: rest =>
    if goContains line (gs "CommandLine") then winCmdOfLine line
    else winFirstCmdLine rest

/-- Loop of findWindowsProcessWithCmdLine over the lines that carry a
process id: the first positive id wins, paired with the command line
taken from the first command-line row of the whole output. -/
def findWindowsLoop (cmdLine : GoString) : List GoString →
    Option (Int × GoString)
  | [] => none
  | line :: rest =>
    if goContains line (gs "ProcessId") then
      let pid := winPidOfLine line
      if pid > 0 then some (pid, cmdLine)
      else findWindowsLoop cmdLine rest
    else findWindowsLoop cmdLine rest

/-- findWindowsProcessWithCmdLine (core/mariadb.go). -/
def findWindowsProcess (snap : OsSnap) : Option (Int × GoString) :=
  match snap.wmiOutput with
  | none => none
  | some out =>
    if goContains out (gs "ProcessId") then
      let lines := goSplitChar nlChar out
      findWindowsLoop (winFirstCmdLine lines) lines
    else none

/-- FindProcessWithCmdLine (core/mariadb.go): per-OS dispatch; found is
modelled by the option being set. -/
def FindProcessWithCmdLine (env : SysEnv) (snap : OsSnap)
    (processName : GoString) : Option (Int × GoString) :=
  if env.goos = gs "windows" then findWindowsProcess snap
  else findUnixProcess snap processName

/-- IsMariaDBRunning (core/mariadb.go). -/
def IsMariaDBRunning (env : SysEnv) (snap : OsSnap) : Bool :=
  (FindProcessWithCmdLine env snap (processNameFor env)).isSome

/-! ## Port fallback chain (core/mariadb.go getCurrentPort) -/

/-- extractPortFromCmdLine (core/mariadb.go): re-query the process, then
run the shared extraction algorithm at the port flag. -/
def extractPortFromCmdLine (env : SysEnv) (snap : OsSnap) : GoString :=
  match FindProcessWithCmdLine env snap (processNameFor env) with
  | none => []
  | some (_, cmdLine) => extractArgumentValue (gs "port") cmdLine

/-- Output-parsing loop of queryDatabasePort: first tab-split row whose
first cell is the word port. -/
def dbPortLoop : List GoString → GoString
  | [] => []
  | line :: rest =>
    match goSplitChar tabChar line with
    | a :: b :: _ => if a = gs "port" then goTrimSpace b else dbPortLoop rest
    | _ => dbPortLoop rest

/-- queryDatabasePort (core/mariadb.go): issue the credentialed query and
parse the port out of its output; any command error yields empty. -/
def queryDatabasePort (snap : OsSnap) : GoString :=
  match snap.dbQueryOutput with
  | none => []
  | some out => dbPortLoop (goSplitChar nlChar (goTrimSpace out))

/-- Per-line address and owner extraction of getPortFromNetstat: the
local address and process column depend on the platform field layout. -/
def netstatCols (goosWindows : Bool) (fields : List GoString) :
    GoString × GoString :=
  if goosWindows then
    if fields.length ≥ 5 then
      ((fields.drop 1).headD [], (fields.drop 4).headD [])
    else ([], [])
  else
    if fields.length ≥ 4 then
      ((fields.drop 3).headD [],
        if fields.length ≥ 7 then (fields.drop 6).headD [] else [])
    else ([], [])

/-- Scan loop of getPortFromNetstat: first listening row owned by the
given process id whose local address ends in a usable port. -/
def netstatLoop (goosWindows : Bool) (pidStr : GoString) :
    List GoString → GoString
  | [] => []
  | line :: rest =>
    if goContains line (gs "LISTENING") || goContains line (gs "LISTEN") then
      let cols := netstatCols goosWindows (goFields line)
      let localAddr := cols.1
      let processInfo := cols.2
      if goContains processInfo pidStr then
        match goLastIndex? localAddr (Char.ofNat 58) with
        | some colonIdx =>
          let port := localAddr.drop (colonIdx + 1)
          if port ≠ gs "0" && port.length > 0 then port
          else netstatLoop goosWindows pidStr rest
        | none => netstatLoop goosWindows pidStr rest
      else netstatLoop goosWindows pidStr rest
    else netstatLoop goosWindows pidStr rest

/-- getPortFromNetstat (core/mariadb.go): look up the socket table row
owned by the discovered process id. -/
def getPortFromNetstat (env : SysEnv) (snap : OsSnap) : GoString :=
  match snap.netstatOutput with
  | none => []
  | some out =>
    match FindProcessWithCmdLine env snap (processNameFor env) with
    | none => []
    | some (pid, _) =>
      netstatLoop (env.goos = gs "windows") (goItoa pid)
        (goSplitChar nlChar out)

/-- Probe loop over the fixed candidate ports: first one that accepts a
TCP connect. -/
def firstListeningPort (snap : OsSnap) : List GoString → GoString
  | [] => []
  | p :: rest =>
    if snap.portListening p then p else firstListeningPort snap rest

/-- The fixed candidate port list of getCurrentPort. -/
def commonPorts : List GoString :=
  [gs "3306", gs "3307", gs "3308", gs "3309", gs "3310"]

/-- getCurrentPort (core/mariadb.go): the four-step fallback chain with
the final 3306 default. -/
def getCurrentPort (env : SysEnv) (snap : OsSnap) : GoString :=
  let m1 := extractPortFromCmdLine env snap
  if m1 ≠ [] then m1
  else
    let m2 := queryDatabasePort snap
    if m2 ≠ [] then m2
    else
      let m3 := getPortFromNetstat env snap
      if m3 ≠ [] then m3
      else
        let m4 := firstListeningPort snap commonPorts
        if m4 ≠ [] then m4 else gs "3306"

/-! ## Version query and status resolution (core/mariadb.go) -/

/-- Token scan of GetMariaDBVersion: the token following the first token
that mentions Ver. -/
def versionTokenLoop : List GoString → GoString
  | p :: q :: rest =>
    if goContains p (gs "Ver") then q else versionTokenLoop (q :: rest)
  | _ => gs "Unknown"

/-- GetMariaDBVersion (core/mariadb.go): parse the version token out of
the version-flag output; any failure yields Unknown. -/
def GetMariaDBVersion (snap : OsSnap) : GoString :=
  match snap.versionOutput with
  | none => gs "Unknown"
  | some out =>
    match goSplitChar nlChar out with
    | first :: _ => versionTokenLoop (goFields first)
    | [] => gs "Unknown"

/-- Catalog match loop of GetMariaDBStatus: first profile whose cleaned
path equals the cleaned extracted config file path. -/
def findMatchingConfig (env : SysEnv) (configFile : GoString) :
    Option MariaDBConfig :=
  let normalized := env.cleanPath configFile
  env.availableConfigs.find? (fun cfg => env.cleanPath cfg.path = normalized)

/-- GetMariaDBStatus (core/mariadb.go): resolve the running state, the
matched profile or the fallback port, and the version. -/
def GetMariaDBStatus (env : SysEnv) (snap : OsSnap) : MariaDBStatus :=
  let running := IsMariaDBRunning env snap
  if !running then zeroStatus
  else
    let s1 : MariaDBStatus := { zeroStatus with isRunning := true }
    let s2 :=
      match FindProcessWithCmdLine env snap (processNameFor env) with
      | none => s1
      | some (pid, cmdLine) =>
        let s := { s1 with processID := pid }
        let configFile := extractConfigFromCmdLine cmdLine
        if configFile ≠ [] then
          let s' := { s with configFile := configFile }
          match findMatchingConfig env configFile with
          | some cfg =>
            { s' with configName := cfg.name, port := cfg.port,
                      dataPath := cfg.dataDir }
          | none => s'
        else { s with port := getCurrentPort env snap }
    { s2 with version := GetMariaDBVersion snap }

/-! ## Start (core/mariadb.go StartMariaDBWithConfig)

Time is counted in slept seconds: the only waits in the source are the
fixed 3 second pause after the spawn, the 1 second pauses of the poll
loop, and the 3 second pause inside the stop routine, so the snapshot
index advances exactly there. -/

/-- GetExecutableName (core/utils.go). -/
def GetExecutableName (env : SysEnv) (base : GoString) : GoString :=
  if env.goos = gs "windows" then base ++ gs ".exe" else base

/-- ValidateDataDirectory (marker-path check): all three expected entries
are present. -/
def ValidateDataDirectory (env : SysEnv) (dataDir : GoString) : Bool :=
  [env.joinPath dataDir (gs "mysql"),
   env.joinPath dataDir (gs "performance_schema"),
   env.joinPath dataDir (gs "ibdata1")].all env.pathExists

/-- Primary data-directory setup (InitializeDataDir in the source): run
the dedicated setup tool when present, else the server binary in its
insecure setup mode; true means success. -/
def initDataDirRun (env : SysEnv) (dataDir : GoString) :
    Bool × List Effect :=
  let installDbPath := env.joinPath env.mariaDBBin (gs "mysql_install_db")
    ++ (if env.goos = gs "windows" then gs ".exe" else [])
  if env.pathExists installDbPath then
    (env.installDbOk, [Effect.execInstallDb dataDir])
  else
    (env.mysqldInitOk, [Effect.execMysqldInit dataDir])

/-- Alternative data-directory setup (InitializeDataDirAlternative): the
server binary pointed at the config file. -/
def initDataDirAltRun (env : SysEnv) (dataDir configFile : GoString) :
    Bool × List Effect :=
  (env.mysqldInitAltOk, [Effect.execMysqldInitAlt dataDir configFile])

/-- Errors of StartMariaDBWithConfig, one per distinct error return of
the source in program order. -/
inductive StartErr where
  | alreadyRunning
  | binNotConfigured
  | binDirNotFound (p : GoString)
  | mysqldNotFound (p : GoString)
  | configNotFound (p : GoString)
  | absPathFailed
  | mkdirFailed (d : GoString)
  | dataDirInitFailed
  | stillRunning
  | portOccupied (p : GoString)
  | spawnFailed
  | notRunningAfterStart
  deriving DecidableEq

/-- Outcome of a start attempt: the error if any, the side effects in
order, and the snapshot index when the call returns. -/
structure StartOut where
  err : Option StartErr
  effects : List Effect
  tEnd : Nat
  deriving DecidableEq

/-- Server-binary resolution of StartMariaDBWithConfig: the primary name
in the binary directory, then the alternate name, then the system-wide
lookup. -/
def resolveMysqldPath (env : SysEnv) : Option GoString :=
  let mysqldPath := env.joinPath env.mariaDBBin
    (GetExecutableName env (gs "mysqld"))
  if env.pathExists mysqldPath then some mysqldPath
  else
    let mariadbdPath := env.joinPath env.mariaDBBin
      (GetExecutableName env (gs "mariadbd"))
    if env.pathExists mariadbdPath then some mariadbdPath
    else
      match env.whichOutput with
      | some out => some (goTrimSpace out)
      | none => none

/-- Data-directory preparation block of StartMariaDBWithConfig: resolve
to an absolute path, create it when absent, set it up when empty, else
check its markers (a failed check only logs a warning). -/
def prepDataDir (env : SysEnv) (dataDir0 absConfigFile : GoString) :
    Option StartErr × List Effect :=
  let dd := if env.isAbsPath dataDir0 then dataDir0
    else env.joinPath (env.dirPath absConfigFile) dataDir0
  let mk : Option StartErr × List Effect :=
    if !env.pathExists dd then
      if env.mkdirOk dd then (none, [Effect.mkdirAll dd])
      else (some (StartErr.mkdirFailed dd), [Effect.mkdirAll dd])
    else (none, [])
  match mk with
  | (some e, effs) => (some e, effs)
  | (none, effs) =>
    if env.isDirEmpty dd then
      match initDataDirRun env dd with
      | (true, e2) => (none, effs ++ e2)
      | (false, e2) =>
        match initDataDirAltRun env dd absConfigFile with
        | (true, e3) => (none, effs ++ e2 ++ e3)
        | (false, e3) =>
          (some StartErr.dataDirInitFailed, effs ++ e2 ++ e3)
    else
      let _warn := ValidateDataDirectory env dd
      (none, effs)

/-- The bounded verification loop after the spawn: up to 10 attempts,
breaking as soon as the instance is found and its port accepts
connections, sleeping one second after each failed attempt; the result is
the snapshot index at which the loop stops. -/
def pollLoop (w : World) (port : GoString) : Nat → Nat → Nat
  | 0, t => t
  | fuel + 1, t =>
    if IsMariaDBRunning w.env (w.snapAt t) &&
        (w.snapAt t).portListening port then t
    else pollLoop w port fuel (t + 1)

/-- StartMariaDBWithConfig (core/mariadb.go): ordered precondition
checks, data-directory preparation, dry-run validation, detached spawn,
and bounded verification. -/
def StartMariaDBWithConfig (w : World) (t0 : Nat) (configFile : GoString) :
    StartOut :=
  if IsMariaDBRunning w.env (w.snapAt t0) then
    ⟨some StartErr.alreadyRunning, [], t0⟩
  else if w.env.mariaDBBin = [] then
    ⟨some StartErr.binNotConfigured, [], t0⟩
  else if !w.env.pathExists w.env.mariaDBBin then
    ⟨some (StartErr.binDirNotFound w.env.mariaDBBin), [], t0⟩
  else
    match resolveMysqldPath w.env with
    | none =>
      ⟨some (StartErr.mysqldNotFound (w.env.joinPath w.env.mariaDBBin
        (GetExecutableName w.env (gs "mysqld")))), [], t0⟩
    | some mysqldPath =>
      if !w.env.pathExists configFile then
        ⟨some (StartErr.configNotFound configFile), [], t0⟩
      else
        match w.env.absPath configFile with
        | none => ⟨some StartErr.absPathFailed, [], t0⟩
        | some absConfigFile =>
          let configData := ParseConfigFile w.env configFile
          let prep :=
            if configData.dataDir ≠ [] then
              prepDataDir w.env configData.dataDir absConfigFile
            else (none, [])
          match prep with
          | (some e, effs) => ⟨some e, effs, t0⟩
          | (none, effs) =>
            if IsMariaDBRunning w.env (w.snapAt t0) then
              ⟨some StartErr.stillRunning, effs, t0⟩
            else if !(w.snapAt t0).portAvailable configData.port then
              ⟨some (StartErr.portOccupied configData.port), effs, t0⟩
            else
              let effs1 := effs ++ [Effect.execValidate absConfigFile]
              let effs2 := effs1 ++
                [Effect.spawnServer mysqldPath absConfigFile]
              match w.env.spawnPid with
              | none => ⟨some StartErr.spawnFailed, effs2, t0⟩
              | some _pid =>
                let effs3 := effs2 ++ [Effect.releaseProcess]
                let t1 := pollLoop w configData.port 10 (t0 + 3)
                if !IsMariaDBRunning w.env (w.snapAt t1) then
                  ⟨some StartErr.notRunningAfterStart, effs3, t1⟩
                else
                  ⟨none, effs3 ++ [Effect.saveLastUsed absConfigFile], t1⟩

/-! ## Stop (StopMySQLWithCredentials and the CLI Stop command) -/

/-- Errors of StopMySQLWithCredentials. -/
inductive StopErr where
  | shutdownToolMissing (p : GoString)
  | shutdownFailed
  deriving DecidableEq

/-- Outcome of the credentialed stop routine. -/
structure StopOut where
  err : Option StopErr
  effects : List Effect
  tEnd : Nat
  deriving DecidableEq

/-- The resolved path of the administrative shutdown tool. -/
def mysqladminPathOf (env : SysEnv) : GoString :=
  env.joinPath env.mariaDBBin (gs "mysqladmin")
    ++ (if env.goos = gs "windows" then gs ".exe" else [])

/-- StopMySQLWithCredentials: locate the shutdown tool, issue the
administrative shutdown, and on success sleep the fixed 3 second grace
period before returning success with no further check. -/
def StopMySQLWithCredentials (w : World) (t0 : Nat)
    (creds : MySQLCredentials) : StopOut :=
  let mysqladminPath := mysqladminPathOf w.env
  if !w.env.pathExists mysqladminPath then
    ⟨some (StopErr.shutdownToolMissing mysqladminPath), [], t0⟩
  else
    let effs := [Effect.execShutdown creds.host creds.port creds.username]
    if !w.env.shutdownOk creds then ⟨some StopErr.shutdownFailed, effs, t0⟩
    else ⟨none, effs, t0 + 3⟩

/-- The credential prompt taken when saved credentials are declined or
absent: read username, host and port with defaults, read the password,
and optionally save (a keyring failure only warns). The index k is the
number of interactive reads already consumed. -/
def promptNewCredentials (env : SysEnv) (k : Nat) :
    Option (MySQLCredentials × List Effect) :=
  let username0 := goTrimSpace (env.stdin k)
  let username := if username0 = [] then gs "root" else username0
  let host0 := goTrimSpace (env.stdin (k + 1))
  let host := if host0 = [] then gs "localhost" else host0
  let port0 := goTrimSpace (env.stdin (k + 2))
  let port := if port0 = [] then gs "3306" else port0
  match env.readPassword with
  | none => none
  | some pw =>
    let creds : MySQLCredentials :=
      { username := username, password := pw, host := host, port := port }
    let saveResp := goTrimSpace (env.stdin (k + 3))
    if goToLower saveResp = gs "y" || goToLower saveResp = gs "yes" then
      some (creds, [Effect.saveCredentials])
    else some (creds, [])

/-- promptForCredentials (CLI): offer the saved credentials first, else
prompt interactively; none models the password read error. -/
def promptForCredentials (env : SysEnv) :
    Option (MySQLCredentials × List Effect) :=
  match env.savedCredentials with
  | some sc =>
    let response := goTrimSpace (env.stdin 0)
    if response = [] || goToLower response = gs "y" ||
        goToLower response = gs "yes" then
      some (sc, [])
    else promptNewCredentials env 1
  | none => promptNewCredentials env 0

/-- Errors of the CLI Stop command. -/
inductive CLIStopErr where
  | credentialsFailed
  | stopFailed (e : StopErr)
  deriving DecidableEq

/-- Outcome of the CLI Stop command. -/
structure CLIStopOut where
  err : Option CLIStopErr
  effects : List Effect
  tEnd : Nat
  deriving DecidableEq

/-- CLI Stop: a no-op success when the instance is not running, else
prompt for credentials and run the credentialed stop routine. -/
def CLIStop (w : World) (t0 : Nat) : CLIStopOut :=
  if !IsMariaDBRunning w.env (w.snapAt t0) then ⟨none, [], t0⟩
  else
    match promptForCredentials w.env with
    | none => ⟨some CLIStopErr.credentialsFailed, [], t0⟩
    | some (creds, effsP) =>
      let s := StopMySQLWithCredentials w t0 creds
      match s.err with
      | some e => ⟨some (CLIStopErr.stopFailed e), effsP ++ s.effects, s.tEnd⟩
      | none => ⟨none, effsP ++ s.effects, s.tEnd⟩

/-! ## Switch (the CLI Switch command) -/

/-- Catalog lookup of the CLI commands: first profile whose name matches
case-insensitively. -/
def findCLIConfig (configs : List MariaDBConfig) (configName : GoString) :
    Option MariaDBConfig :=
  configs.find? (fun cfg => goEqualFold cfg.name configName)

/-- Errors of the CLI Switch command. -/
inductive SwitchErr where
  | configMissing (name : GoString)
  | stopStep (e : CLIStopErr)
  | startStep (e : StartErr)
  deriving DecidableEq

/-- Outcome of the CLI Switch command. -/
structure SwitchOut where
  err : Option SwitchErr
  effects : List Effect
  tEnd : Nat
  deriving DecidableEq

/-- CLI Switch: find the target profile, stop the running instance if
any, then start the target; there is no comparison between the running
profile and the target. -/
def CLISwitch (w : World) (configName : GoString) : SwitchOut :=
  match findCLIConfig w.env.availableConfigs configName with
  | none => ⟨some (SwitchErr.configMissing configName), [], 0⟩
  | some targetConfig =>
    if IsMariaDBRunning w.env (w.snapAt 0) then
      let st := CLIStop w 0
      match st.err with
      | some e => ⟨some (SwitchErr.stopStep e), st.effects, st.tEnd⟩
      | none =>
        let s := StartMariaDBWithConfig w st.tEnd targetConfig.path
        ⟨s.err.map SwitchErr.startStep, st.effects ++ s.effects, s.tEnd⟩
    else
      let s := StartMariaDBWithConfig w 0 targetConfig.path
      ⟨s.err.map SwitchErr.startStep, s.effects, s.tEnd⟩

/-! ## Concrete worlds used by witnesses and counterexamples -/

/-- Cataloged production profile. -/
def prodConfig : MariaDBConfig :=
  { name := gs "prod", path := gs "/cfg/prod.ini",
    dataDir := gs "/data/prod", port := gs "3306", fileExists := true }

/-- Second cataloged profile declaring the same port. -/
def devConfig : MariaDBConfig :=
  { name := gs "dev", path := gs "/cfg/dev.ini",
    dataDir := gs "/data/dev", port := gs "3306", fileExists := true }

/-- Process listing row of an instance launched with the production
profile. -/
def prodPsLine : GoString :=
  gs "mysql 42 0.0 0.1 10 20 ? Ssl 10:00 0:00 /usr/sbin/mysqld --defaults-file=/cfg/prod.ini"

/-- Snapshot in which the production instance is running and holds port
3306. -/
def snapProdRunning : OsSnap :=
  { psOutput := some prodPsLine,
    portListening := fun p => p = gs "3306",
    portAvailable := fun _ => false }

/-- Snapshot with no server process; ports are free. -/
def snapStopped : OsSnap :=
  { psOutput := some (gs "root 1 0.0 0.0 1 1 ? Ss 09:00 0:00 /sbin/init"),
    portListening := fun _ => false,
    portAvailable := fun _ => true }

/-- Snapshot after a fresh spawn of the production profile. -/
def snapProdNew : OsSnap :=
  { psOutput := some prodPsLine,
    portListening := fun p => p = gs "3306",
    portAvailable := fun _ => false }

/-- Shared static environment of the concrete worlds: binaries and files
present, catalog holding the production profile, saved credentials
accepted at the prompt. -/
def baseEnv : SysEnv :=
  { goos := gs "linux",
    processNames := fun g => if g = gs "linux" then gs "mysqld" else [],
    mariaDBBin := gs "/usr/sbin",
    availableConfigs := [prodConfig],
    savedCredentials :=
      some { username := gs "root", password := gs "pw",
             host := gs "localhost", port := gs "3306" },
    pathExists := fun _ => true,
    fileLines := fun p =>
      if p = gs "/cfg/prod.ini" then
        some [gs "[mysqld]", gs "port=3306", gs "datadir=/data/prod"]
      else if p = gs "/cfg/dev.ini" then
        some [gs "[mysqld]", gs "port=3306", gs "datadir=/data/dev"]
      else none,
    dirPath := fun _ => gs "/cfg",
    spawnPid := some 99,
    stdin := fun _ => gs "y" }

/-- World of the Switch scenario: the production instance is running,
disappears after the stop grace period, and a fresh instance appears once
the post-spawn wait has elapsed. -/
def worldSwitch : World :=
  { env := baseEnv,
    snapAt := fun t =>
      if t < 3 then snapProdRunning
      else if t < 6 then snapStopped
      else snapProdNew }

/-- World with two same-port profiles cataloged and the production
instance permanently running. -/
def worldTwoConfigs : World :=
  { env := { baseEnv with availableConfigs := [devConfig, prodConfig] },
    snapAt := fun _ => snapProdRunning }

/-- World in which the instance survives the shutdown command and its
grace period. -/
def worldStuck : World :=
  { env := baseEnv, snapAt := fun _ => snapProdRunning }

/-- World with no running instance at any time. -/
def worldIdle : World :=
  { env := baseEnv, snapAt := fun _ => snapStopped }

/-! ## Claims -/

/-- C2: whenever the status resolver reports the instance running, the
start routine fails with the already-running error as its very first
step, with no side effects, no spawn, and no time passing — for every
world, even ones where later checks would also fail. -/
theorem start_alreadyRunning_first (w : World) (t0 : Nat)
    (configFile : GoString)
    (h : IsMariaDBRunning w.env (w.snapAt t0) = true) :
    StartMariaDBWithConfig w t0 configFile =
      ⟨some StartErr.alreadyRunning, [], t0⟩ := by
  simp [StartMariaDBWithConfig, h]

/-- C2 witness: the start routine refuses to run while the production
instance is up. -/
theorem start_alreadyRunning_first_witness :
    StartMariaDBWithConfig worldStuck 0 (gs "/cfg/prod.ini") =
      ⟨some StartErr.alreadyRunning, [], 0⟩ :=
  start_alreadyRunning_first worldStuck 0 (gs "/cfg/prod.ini") (by decide)

/-- C7: the CLI stop command called while the resolver reports not
running returns success immediately: no credential prompt, no shutdown
command, no effects, no time passing. -/
theorem stop_idempotent_when_not_running (w : World) (t0 : Nat)
    (h : IsMariaDBRunning w.env (w.snapAt t0) = false) :
    CLIStop w t0 = ⟨none, [], t0⟩ := by
  simp [CLIStop, h]

/-- C7 witness: stopping an idle world is a success with no effects. -/
theorem stop_idempotent_when_not_running_witness :
    CLIStop worldIdle 5 = ⟨none, [], 5⟩ :=
  stop_idempotent_when_not_running worldIdle 5 (by decide)

/-- C6: a status snapshot whose running flag is false is the all-unset
status: no process id, no config file or name, no data path, no port, no
version. -/
theorem status_not_running_all_unset (env : SysEnv) (snap : OsSnap)
    (h : (GetMariaDBStatus env snap).isRunning = false) :
    GetMariaDBStatus env snap = zeroStatus := by
  cases hr : IsMariaDBRunning env snap with
  | false => simp [GetMariaDBStatus, hr]
  | true =>
    exfalso
    simp only [GetMariaDBStatus, hr, Bool.not_true, Bool.false_eq_true,
      if_false] at h
    rcases hf : FindProcessWithCmdLine env snap (processNameFor env) with
      _ | ⟨pid, cmdLine⟩ <;> simp only [hf] at h
    · simp [zeroStatus] at h
    · rcases hm : findMatchingConfig env (extractConfigFromCmdLine cmdLine)
        with _ | cfg <;> simp only [hm] at h <;> split at h <;> simp at h

/-- C6 witness: with no process found the status is the all-unset
value. -/
theorem status_not_running_all_unset_witness :
    GetMariaDBStatus baseEnv snapStopped = zeroStatus :=
  status_not_running_all_unset baseEnv snapStopped (by decide)

/-- C1 counterexample: with the production profile running and Switch
called on that same profile, the command is not a no-op: it sends the
administrative shutdown to the running instance and spawns a fresh
server, even though the running profile equals the target. -/
theorem switch_same_profile_counterexample :
    (GetMariaDBStatus worldSwitch.env (worldSwitch.snapAt 0)).configName =
      gs "prod" ∧
    findCLIConfig worldSwitch.env.availableConfigs (gs "prod") =
      some prodConfig ∧
    Effect.execShutdown (gs "localhost") (gs "3306") (gs "root") ∈
      (CLISwitch worldSwitch (gs "prod")).effects ∧
    Effect.spawnServer (gs "/usr/sbin/mysqld") (gs "/cfg/prod.ini") ∈
      (CLISwitch worldSwitch (gs "prod")).effects := by
  decide

/-- C1 as amended: Switch never compares the running profile with the
target; whenever any instance is running and the CLI stop step succeeds,
Switch proceeds to start the target profile, its outcome and effects
being exactly those of the stop step followed by the start routine. -/
theorem switch_always_stops_then_starts (w : World)
    (name : GoString) (cfg : MariaDBConfig)
    (hfind : findCLIConfig w.env.availableConfigs name = some cfg)
    (hrun : IsMariaDBRunning w.env (w.snapAt 0) = true)
    (hstop : (CLIStop w 0).err = none) :
    CLISwitch w name =
      ⟨(StartMariaDBWithConfig w (CLIStop w 0).tEnd cfg.path).err.map
          SwitchErr.startStep,
        (CLIStop w 0).effects ++
          (StartMariaDBWithConfig w (CLIStop w 0).tEnd cfg.path).effects,
        (StartMariaDBWithConfig w (CLIStop w 0).tEnd cfg.path).tEnd⟩ := by
  simp [CLISwitch, hfind, hrun, hstop]

/-- C1 amended witness: switching to the already-running production
profile stops it and starts it again, ending in success with the full
effect trace. -/
theorem switch_always_stops_then_starts_witness :
    CLISwitch worldSwitch (gs "prod") =
      ⟨none,
        [Effect.execShutdown (gs "localhost") (gs "3306") (gs "root"),
         Effect.execValidate (gs "/cfg/prod.ini"),
         Effect.spawnServer (gs "/usr/sbin/mysqld") (gs "/cfg/prod.ini"),
         Effect.releaseProcess,
         Effect.saveLastUsed (gs "/cfg/prod.ini")], 6⟩ :=
  (switch_always_stops_then_starts worldSwitch (gs "prod") prodConfig
    (by decide) (by decide) (by decide)).trans (by decide)

/-- C3 counterexample: two cataloged profiles both declare port 3306, the
first is confirmed running and even holds the port, yet starting the
second fails with the already-running error, not the port-occupied
error. -/
theorem second_profile_start_error_counterexample :
    devConfig.port = gs "3306" ∧ prodConfig.port = gs "3306" ∧
    devConfig ∈ worldTwoConfigs.env.availableConfigs ∧
    prodConfig ∈ worldTwoConfigs.env.availableConfigs ∧
    (GetMariaDBStatus worldTwoConfigs.env (worldTwoConfigs.snapAt 0)
      ).configName = gs "prod" ∧
    (worldTwoConfigs.snapAt 0).portAvailable (gs "3306") = false ∧
    (StartMariaDBWithConfig worldTwoConfigs 0 (gs "/cfg/dev.ini")).err =
      some StartErr.alreadyRunning ∧
    some StartErr.alreadyRunning ≠
      some (StartErr.portOccupied (gs "3306")) := by
  decide

/-- C3 as amended: with two cataloged profiles declaring the same port
3306, starting the second while the first is confirmed running fails with
the already-running error; the port-occupied check is never reached in
that situation. -/
theorem second_profile_start_already_running (w : World) (t0 : Nat)
    (c1 c2 : MariaDBConfig)
    (_h1 : c1 ∈ w.env.availableConfigs) (_h2 : c2 ∈ w.env.availableConfigs)
    (_hp1 : c1.port = gs "3306") (_hp2 : c2.port = gs "3306")
    (hrun : IsMariaDBRunning w.env (w.snapAt t0) = true) :
    (StartMariaDBWithConfig w t0 c2.path).err =
      some StartErr.alreadyRunning := by
  simp [StartMariaDBWithConfig, hrun]

/-- C3 amended witness: starting the dev profile while the prod instance
runs yields the already-running error. -/
theorem second_profile_start_already_running_witness :
    (StartMariaDBWithConfig worldTwoConfigs 0 devConfig.path).err =
      some StartErr.alreadyRunning :=
  second_profile_start_already_running worldTwoConfigs 0 prodConfig
    devConfig (by decide) (by decide) (by decide) (by decide) (by decide)

/-- C4 counterexample: the instance survives the shutdown command and the
whole grace period, yet the stop command returns success after the fixed
3 seconds — there is no status re-check and no stop-timeout failure. -/
theorem stop_no_recheck_counterexample :
    (CLIStop worldStuck 0).err = none ∧
    (CLIStop worldStuck 0).tEnd = 3 ∧
    IsMariaDBRunning worldStuck.env
      (worldStuck.snapAt (CLIStop worldStuck 0).tEnd) = true := by
  decide

/-- C4 as amended: when the resolver reports running, the prompt yields
credentials, the shutdown tool is present and its command succeeds, the
stop command sleeps the fixed 3 second grace period and returns success
unconditionally — the world at the end of the grace period is not
consulted at all. -/
theorem stop_success_without_recheck (w : World) (t0 : Nat)
    (creds : MySQLCredentials) (effsP : List Effect)
    (hrun : IsMariaDBRunning w.env (w.snapAt t0) = true)
    (hprompt : promptForCredentials w.env = some (creds, effsP))
    (htool : w.env.pathExists (mysqladminPathOf w.env) = true)
    (hok : w.env.shutdownOk creds = true) :
    CLIStop w t0 =
      ⟨none,
        effsP ++ [Effect.execShutdown creds.host creds.port creds.username],
        t0 + 3⟩ := by
  simp [CLIStop, hrun, hprompt, StopMySQLWithCredentials, htool, hok]

/-- C4 amended witness: stopping the permanently running world succeeds
at time 3 with only the shutdown effect. -/
theorem stop_success_without_recheck_witness :
    CLIStop worldStuck 0 =
      ⟨none,
        [Effect.execShutdown (gs "localhost") (gs "3306") (gs "root")], 3⟩ :=
  (stop_success_without_recheck worldStuck 0
    { username := gs "root", password := gs "pw",
      host := gs "localhost", port := gs "3306" } []
    (by decide) (by decide) (by decide) (by decide)).trans (by decide)

/-- Snapshot of an instance launched outside the catalog: its
defaults-file argument points at an uncataloged path, and every step of
the port-resolution chain comes up empty. -/
def snapForeign : OsSnap :=
  { psOutput := some (gs "mysql 42 0.0 0.1 10 20 ? Ssl 10:00 0:00 /usr/sbin/mysqld --defaults-file=/tmp/foo.ini"),
    portListening := fun _ => false,
    portAvailable := fun _ => false }

/-- C5 counterexample: the running instance carries a defaults-file with
no catalog match, every chain step would come up empty, yet the resolved
port is the empty string, not the claimed default 3306 — the fallback
chain is not consulted when a defaults-file is present but unmatched. -/
theorem port_chain_trigger_counterexample :
    (GetMariaDBStatus baseEnv snapForeign).isRunning = true ∧
    (GetMariaDBStatus baseEnv snapForeign).configFile = gs "/tmp/foo.ini" ∧
    findMatchingConfig baseEnv (gs "/tmp/foo.ini") = none ∧
    (GetMariaDBStatus baseEnv snapForeign).port = [] ∧
    (GetMariaDBStatus baseEnv snapForeign).port ≠ gs "3306" := by
  decide

/-- C5 as amended: the port-resolution chain runs only when no
defaults-file argument can be extracted from the command line; a
defaults-file that has no catalog match leaves the port empty. When the
chain does run, its steps are attempted in the fixed order command-line
port flag, credentialed query, socket-table lookup, then the ascending
probe of ports 3306 through 3310, and only when all yield empty is the
port 3306. -/
theorem port_chain_order (env : SysEnv) (snap : OsSnap)
    (pid : Int) (cmdLine : GoString)
    (hf : FindProcessWithCmdLine env snap (processNameFor env) =
      some (pid, cmdLine)) :
    (extractConfigFromCmdLine cmdLine ≠ [] →
      findMatchingConfig env (extractConfigFromCmdLine cmdLine) = none →
      (GetMariaDBStatus env snap).port = []) ∧
    (extractConfigFromCmdLine cmdLine = [] →
      (GetMariaDBStatus env snap).port = getCurrentPort env snap) ∧
    (extractPortFromCmdLine env snap ≠ [] →
      getCurrentPort env snap = extractPortFromCmdLine env snap) ∧
    (extractPortFromCmdLine env snap = [] → queryDatabasePort snap ≠ [] →
      getCurrentPort env snap = queryDatabasePort snap) ∧
    (extractPortFromCmdLine env snap = [] → queryDatabasePort snap = [] →
      getPortFromNetstat env snap ≠ [] →
      getCurrentPort env snap = getPortFromNetstat env snap) ∧
    (extractPortFromCmdLine env snap = [] → queryDatabasePort snap = [] →
      getPortFromNetstat env snap = [] →
      firstListeningPort snap commonPorts ≠ [] →
      getCurrentPort env snap = firstListeningPort snap commonPorts) ∧
    (extractPortFromCmdLine env snap = [] → queryDatabasePort snap = [] →
      getPortFromNetstat env snap = [] →
      firstListeningPort snap commonPorts = [] →
      getCurrentPort env snap = gs "3306") := by
  have hrun : IsMariaDBRunning env snap = true := by
    simp [IsMariaDBRunning, hf]
  refine ⟨?_, ?_, ?_, ?_, ?_, ?_, ?_⟩
  · intro hc hm
    simp [GetMariaDBStatus, hrun, hf, hc, hm, zeroStatus]
  · intro hc
    simp [GetMariaDBStatus, hrun, hf, hc, zeroStatus]
  · intro h1
    simp [getCurrentPort, h1]
  · intro h1 h2
    simp [getCurrentPort, h1, h2]
  · intro h1 h2 h3
    simp [getCurrentPort, h1, h2, h3]
  · intro h1 h2 h3 h4
    simp [getCurrentPort, h1, h2, h3, h4]
  · intro h1 h2 h3 h4
    simp [getCurrentPort, h1, h2, h3, h4]

/-- Snapshot of an instance launched with no command-line flags, where
only port 3307 answers the TCP probe. -/
def snapPlain : OsSnap :=
  { psOutput := some (gs "mysql 42 0.0 0.1 10 20 ? Ssl 10:00 0:00 /usr/sbin/mysqld"),
    portListening := fun p => p = gs "3307",
    portAvailable := fun _ => false }

/-- Snapshot of a flagless instance where every chain step fails. -/
def snapBare : OsSnap :=
  { psOutput := some (gs "mysql 42 0.0 0.1 10 20 ? Ssl 10:00 0:00 /usr/sbin/mysqld"),
    portListening := fun _ => false,
    portAvailable := fun _ => false }

/-- C5 amended witness: an unmatched defaults-file leaves the port empty;
a flagless instance resolves the port through the probe step (3307), and
with every step failing the default 3306 is used. -/
theorem port_chain_order_witness :
    (GetMariaDBStatus baseEnv snapForeign).port = [] ∧
    (GetMariaDBStatus baseEnv snapPlain).port = gs "3307" ∧
    getCurrentPort baseEnv snapBare = gs "3306" := by
  refine ⟨?_, ?_, ?_⟩
  · exact (port_chain_order baseEnv snapForeign 42
      (gs "/usr/sbin/mysqld --defaults-file=/tmp/foo.ini") (by decide)).1
      (by decide) (by decide)
  · have h := port_chain_order baseEnv snapPlain 42
      (gs "/usr/sbin/mysqld") (by decide)
    have h2 := h.2.1 (by decide)
    have h6 := h.2.2.2.2.2.1 (by decide) (by decide) (by decide) (by decide)
    exact h2.trans (h6.trans (by decide))
  · exact (port_chain_order baseEnv snapBare 42
      (gs "/usr/sbin/mysqld") (by decide)).2.2.2.2.2.2
      (by decide) (by decide) (by decide) (by decide)

/-- C8 counterexample: a file that fails to open while its path passes
the separate existence check yields a profile whose exists flag is true,
not false as claimed. -/
theorem parse_open_failure_counterexample :
    baseEnv.fileLines (gs "/cfg/locked.ini") = none ∧
    (ParseConfigFile baseEnv (gs "/cfg/locked.ini")).fileExists = true := by
  decide

/-- C8 as amended: a file that fails to open yields, without any fatal
error, a profile whose exists flag mirrors the independent path-existence
check (so it is false exactly when the path is absent) and whose other
fields — port included, the 3306 default is not applied on this path —
are all empty. -/
theorem parse_open_failure_profile (env : SysEnv) (p : GoString)
    (h : env.fileLines p = none) :
    ParseConfigFile env p =
      { path := p, fileExists := env.pathExists p } := by
  simp [ParseConfigFile, h]

/-- C8 amended witness: the locked file parses to the bare profile with
the exists flag from the path check. -/
theorem parse_open_failure_profile_witness :
    ParseConfigFile baseEnv (gs "/cfg/locked.ini") =
      { path := gs "/cfg/locked.ini", fileExists := true } :=
  (parse_open_failure_profile baseEnv (gs "/cfg/locked.ini")
    (by decide)).trans (by decide)

/-- A key=value line whose key is not recognized leaves the profile
unchanged. -/
theorem applyConfigLine_unrecognized (l : GoString) (cfg : MariaDBConfig)
    (h : RecognizedKeyLine l = false) : applyConfigLine l cfg = cfg := by
  unfold RecognizedKeyLine at h
  unfold applyConfigLine
  cases hc : goContains l (gs "=") with
  | false => simp [hc]
  | true =>
    rw [hc] at h
    simp only [Bool.true_and] at h
    rcases hs : goSplitN2 (Char.ofNat 61) l with _ | ⟨k, tail⟩
    · simp [hs]
    · rcases tail with _ | ⟨v, rest⟩
      · simp [hs]
      · rcases rest with _ | ⟨r, t⟩
        · rw [hs] at h
          simp only [Bool.or_eq_false_iff, decide_eq_false_iff_not] at h
          simp [hs, h.1.1.1.1, h.1.1.1.2, h.1.1.2, h.1.2, h.2]
        · simp [hs]

/-- When no line of the active mysqld section carries a recognized key,
the scanner loop leaves the profile unchanged. -/
theorem parseLinesLoop_unrecognized : ∀ (lines : List GoString)
    (inSec : Bool) (cfg : MariaDBConfig),
    (∀ l ∈ mysqldActiveLines lines inSec, RecognizedKeyLine l = false) →
    parseLinesLoop lines inSec cfg = cfg := by
  intro lines
  induction lines with
  | nil => intro inSec cfg _; rfl
  | cons raw rest ih =>
    intro inSec cfg h
    simp only [parseLinesLoop, mysqldActiveLines] at h ⊢
    split
    next hcond =>
      apply ih
      intro l hl
      apply h
      rw [if_pos hcond]
      exact hl
    next h1 =>
      split
      next h2 =>
        apply ih
        intro l hl
        apply h
        rw [if_neg h1, if_pos h2]
        exact hl
      next h2 =>
        split
        next h3 =>
          rw [applyConfigLine_unrecognized]
          · apply ih
            intro l hl
            apply h
            rw [if_neg h1, if_neg h2, if_pos h3]
            exact List.mem_cons_of_mem _ hl
          · apply h
            rw [if_neg h1, if_neg h2, if_pos h3]
            exact List.mem_cons_self _ _
        next h3 =>
          apply ih
          intro l hl
          apply h
          rw [if_neg h1, if_neg h2, if_neg h3]
          exact hl

/-- C10: a file that opens successfully but yields no recognized key
inside an active mysqld section — in particular a file with no mysqld
section at all — parses without error to a profile with empty dataDir
and description and port 3306; the absence of the section is therefore
not detectable from the parsed result. -/
theorem parse_no_mysqld_data (env : SysEnv) (p : GoString)
    (lines : List GoString) (hopen : env.fileLines p = some lines)
    (hno : ∀ l ∈ mysqldActiveLines lines false, RecognizedKeyLine l = false) :
    ParseConfigFile env p =
      { path := p, fileExists := env.pathExists p, port := gs "3306" } := by
  simp only [ParseConfigFile, hopen]
  rw [parseLinesLoop_unrecognized lines false _ hno]
  simp

/-- Environment whose files hold a client-only section and a mysqld
section with only an unrecognized key. -/
def sectionTestEnv : SysEnv :=
  { baseEnv with
    fileLines := fun p =>
      if p = gs "/cfg/a.ini" then some [gs "[client]", gs "port=3307"]
      else if p = gs "/cfg/b.ini" then
        some [gs "[mysqld]", gs "skip-networking=0"]
      else none }

/-- C10 witness: a file with only a client section and a file whose
mysqld section holds only an unrecognized key both parse to the same
defaulted profile shape. -/
theorem parse_no_mysqld_data_witness :
    ParseConfigFile sectionTestEnv (gs "/cfg/a.ini") =
      { path := gs "/cfg/a.ini", fileExists := true, port := gs "3306" } ∧
    ParseConfigFile sectionTestEnv (gs "/cfg/b.ini") =
      { path := gs "/cfg/b.ini", fileExists := true, port := gs "3306" } :=
  ⟨(parse_no_mysqld_data sectionTestEnv (gs "/cfg/a.ini")
      [gs "[client]", gs "port=3307"]
      (by decide) (by decide)).trans (by decide),
   (parse_no_mysqld_data sectionTestEnv (gs "/cfg/b.ini")
      [gs "[mysqld]", gs "skip-networking=0"]
      (by decide) (by decide)).trans (by decide)⟩

/-- The IndexAny-based cut used by the extractors equals taking the
longest whitespace-free head. -/
theorem indexAnyCut (s cut : GoString) :
    (match goIndexAny? s cut with
      | none => s
      | some e => s.take e) =
      s.takeWhile (fun c => decide (c ∉ cut)) := by
  induction s with
  | nil => rfl
  | cons c rest ih =>
    simp only [goIndexAny?]
    by_cases hc : c ∈ cut
    · simp [hc]
    · simp only [hc, if_false, List.takeWhile_cons, decide_not]
      cases ho : goIndexAny? rest cut with
      | none =>
        rw [ho] at ih
        simpa using ih
      | some e =>
        rw [ho] at ih
        simpa using ih

/-- A successful substring search returns the first occurrence: the
pattern starts there and at no earlier position. -/
theorem goIndex?_some (s pat : GoString) :
    ∀ i, goIndex? s pat = some i →
    goHasPrefix (List.drop i s) pat = true ∧
      ∀ j, j < i → goHasPrefix (List.drop j s) pat = false := by
  induction s with
  | nil =>
    intro i h
    rw [goIndex?] at h
    split at h
    · cases h
      exact ⟨by assumption, by omega⟩
    · cases h
  | cons c rest ih =>
    intro i h
    rw [goIndex?] at h
    split at h
    next hp =>
      cases h
      exact ⟨hp, by omega⟩
    next hp =>
      rcases Option.map_eq_some'.mp h with ⟨i', hi', rfl⟩
      rcases ih i' hi' with ⟨h1, h2⟩
      refine ⟨h1, ?_⟩
      intro j hj
      cases j with
      | zero => simpa using Bool.not_eq_true _ |>.mp hp
      | succ j' => exact h2 j' (by omega)

/-- A failed substring search means the pattern starts nowhere. -/
theorem goIndex?_none (s pat : GoString) (h : goIndex? s pat = none) :
    ∀ j, goHasPrefix (List.drop j s) pat = false := by
  induction s with
  | nil =>
    intro j
    rw [goIndex?] at h
    split at h
    · cases h
    next hp => simpa using Bool.not_eq_true _ |>.mp hp
  | cons c rest ih =>
    intro j
    rw [goIndex?] at h
    split at h
    · cases h
    next hp =>
      have hrest : goIndex? rest pat = none := Option.map_eq_none'.mp h
      cases j with
      | zero => simpa using Bool.not_eq_true _ |>.mp hp
      | succ j' => exact ih hrest j'

/-- The two-token scan returns the trimmed token following the first
standalone flag token. -/
theorem tokenAfter_found (flag : GoString) : ∀ (a : List GoString)
    (b : GoString) (rest : List GoString), flag ∉ a →
    tokenAfter flag (a ++ flag :: b :: rest) = goTrim b quoteChars := by
  intro a
  induction a with
  | nil => intro b rest _; simp [tokenAfter]
  | cons x a' ih =>
    intro b rest hne
    have hx : x ≠ flag := fun he => hne (by simp [he])
    have hstep : tokenAfter flag (x :: (a' ++ flag :: b :: rest)) =
        tokenAfter flag (a' ++ flag :: b :: rest) := by
      rcases ha : a' ++ flag :: b :: rest with _ | ⟨y, l⟩
      · simp at ha
      · simp [tokenAfter, hx]
    rw [List.cons_append, hstep]
    exact ih b rest (fun hm => hne (List.mem_cons_of_mem _ hm))

/-- The two-token scan yields empty when the flag token appears nowhere
before the last token. -/
theorem tokenAfter_notfound (flag : GoString) : ∀ parts : List GoString,
    flag ∉ parts.dropLast → tokenAfter flag parts = [] := by
  intro parts
  induction parts with
  | nil => intro _; rfl
  | cons p rest ih =>
    intro h
    rcases rest with _ | ⟨q, t⟩
    · rfl
    · have hmem : p ∈ (p :: q :: t).dropLast := by
        simp [List.dropLast]
      have hp : p ≠ flag := fun he => h (he ▸ hmem)
      have hrest : flag ∉ (q :: t).dropLast := by
        intro hm
        apply h
        simp [List.dropLast, hm]
      calc tokenAfter flag (p :: q :: t)
            = tokenAfter flag (q :: t) := by simp [tokenAfter, hp]
          _ = [] := ih hrest

/-- C9: for every command line and flag name, extraction returns the
quote-stripped run of non-whitespace characters following the first
occurrence of the --flag= form; otherwise, the quote-trimmed token
following the first standalone --flag token that has a successor; and the
empty string when neither form is present (in particular when --flag is
absent or only the last token). -/
theorem extractArgumentValue_spec (flag cmdLine : GoString) :
    (∀ i, goIndex? cmdLine (gs "--" ++ flag ++ gs "=") = some i →
      goHasPrefix (List.drop i cmdLine) (gs "--" ++ flag ++ gs "=") = true ∧
      (∀ j, j < i →
        goHasPrefix (List.drop j cmdLine) (gs "--" ++ flag ++ gs "=") =
          false) ∧
      extractArgumentValue flag cmdLine =
        goTrim ((List.drop (i + (gs "--" ++ flag ++ gs "=").length) cmdLine
          ).takeWhile (fun c => decide (c ∉ extractWs))) quoteChars) ∧
    (goIndex? cmdLine (gs "--" ++ flag ++ gs "=") = none →
      ∀ (a : List GoString) (b : GoString) (rest : List GoString),
        goFields cmdLine = a ++ (gs "--" ++ flag) :: b :: rest →
        (gs "--" ++ flag) ∉ a →
        extractArgumentValue flag cmdLine = goTrim b quoteChars) ∧
    (goIndex? cmdLine (gs "--" ++ flag ++ gs "=") = none →
      (gs "--" ++ flag) ∉ (goFields cmdLine).dropLast →
      extractArgumentValue flag cmdLine = []) := by
  refine ⟨?_, ?_, ?_⟩
  · intro i hidx
    obtain ⟨h1, h2⟩ := goIndex?_some cmdLine _ i hidx
    refine ⟨h1, h2, ?_⟩
    simp only [extractArgumentValue, hidx]
    have hcut := indexAnyCut
      (List.drop (i + (gs "--" ++ flag ++ gs "=").length) cmdLine) extractWs
    cases ho : goIndexAny?
        (List.drop (i + (gs "--" ++ flag ++ gs "=").length) cmdLine)
        extractWs with
    | none =>
      simp only [ho] at hcut ⊢
      rw [← hcut]
    | some e =>
      simp only [ho] at hcut ⊢
      rw [hcut]
  · intro hnone a b rest hfields ha
    simp only [extractArgumentValue, hnone]
    rw [hfields]
    exact tokenAfter_found _ a b rest ha
  · intro hnone hnotin
    simp only [extractArgumentValue, hnone]
    exact tokenAfter_notfound _ _ hnotin

/-- C9 witness: the three cases at concrete command lines — the equals
form, the two-token form, and the trailing flag with no value. -/
theorem extractArgumentValue_spec_witness :
    extractArgumentValue (gs "port") (gs "mysqld --port=3307 --x") =
      gs "3307" ∧
    extractArgumentValue (gs "port") (gs "mysqld --port 3308") =
      gs "3308" ∧
    extractArgumentValue (gs "port") (gs "mysqld --port") = [] := by
  refine ⟨?_, ?_, ?_⟩
  · exact (((extractArgumentValue_spec (gs "port")
      (gs "mysqld --port=3307 --x")).1 7 (by decide)).2.2).trans (by decide)
  · exact ((extractArgumentValue_spec (gs "port")
      (gs "mysqld --port 3308")).2.1 (by decide) [gs "mysqld"] (gs "3308")
      [] (by decide) (by decide)).trans (by decide)
  · exact (extractArgumentValue_spec (gs "port")
      (gs "mysqld --port")).2.2 (by decide) (by decide)
